import Mathlib

/-
Verification of the gobriva BRI Virtual Account client.

This file gives a shallow embedding, in Lean 4, of the parts of the gobriva
Go SDK that the specification talks about:

  * the per-request HMAC-SHA512 signature (Client.calculateSignature) and the
    request assembly (Client.makeRequest) from client.go, with executable
    SHA-256 / SHA-512 / HMAC / base64 primitives standing in for the Go
    crypto and encoding packages;
  * the response-code catalog (brivaResponseDefinitions,
    GetBRIVAResponseDefinition, getPendingResponseDefinition, isDigitString)
    and the structured error type (StructuredBRIAPIResponse, GetCategory,
    IsPending);
  * the seven virtual-account operations (CreateVirtualAccount, ...) and
    their error classification;
  * the token lifecycle (IsAuthenticated; authenticate is modelled from the
    spec because its implementation is not among the sources, only its tests
    and callers are).

Conventions: Go ints are modelled as Int, wall-clock instants as Int
(seconds; only ordering and shifting matter), Go byte strings as Lean
String/List Nat.  Calls into the Go standard library whose outcome the
surrounding code merely branches on (the HTTP transport, encoding/json
unmarshalling) are passed in as explicit arguments so that every execution
path of the embedded functions is a value of the embedding.
-/

/-! ### Byte-level primitives (crypto/sha256, crypto/sha512, crypto/hmac,
encoding/base64, encoding/hex as used by client.go) -/

/-- UTF-8 encoding of one character, as Go produces with []byte(string). -/
def charUtf8 (c : Char) : List Nat :=
  let n := c.toNat
  if n < 128 then [n]
  else if n < 2048 then [192 + n / 64, 128 + n % 64]
  else if n < 65536 then [224 + n / 4096, 128 + n / 64 % 64, 128 + n % 64]
  else [240 + n / 262144, 128 + n / 4096 % 64, 128 + n / 64 % 64, 128 + n % 64]

/-- The byte sequence of a Go string ([]byte(s)). -/
def strBytes (s : String) : List Nat := s.data.flatMap charUtf8

/-- Big-endian bytes of a 32-bit word. -/
def be32 (n : Nat) : List Nat :=
  [n / 16777216 % 256, n / 65536 % 256, n / 256 % 256, n % 256]

/-- Big-endian bytes of a 64-bit word. -/
def be64 (n : Nat) : List Nat :=
  [n / 72057594037927936 % 256, n / 281474976710656 % 256,
   n / 1099511627776 % 256, n / 4294967296 % 256,
   n / 16777216 % 256, n / 65536 % 256, n / 256 % 256, n % 256]

/-- Big-endian 32-bit word at byte offset i. -/
def word32At (l : List Nat) (i : Nat) : Nat :=
  l.getD i 0 * 16777216 + l.getD (i + 1) 0 * 65536 +
    l.getD (i + 2) 0 * 256 + l.getD (i + 3) 0

/-- Big-endian 64-bit word at byte offset i. -/
def word64At (l : List Nat) (i : Nat) : Nat :=
  word32At l i * 4294967296 + word32At l (i + 4)

/-- Right rotation in 32 bits. -/
def rotr32 (x n : Nat) : Nat :=
  ((x >>> n) ||| (x <<< (32 - n))) % 4294967296

/-- Right rotation in 64 bits. -/
def rotr64 (x n : Nat) : Nat :=
  ((x >>> n) ||| (x <<< (64 - n))) % 18446744073709551616

/-- The running hash state: eight working variables. -/
structure Hash8 where
  a : Nat
  b : Nat
  c : Nat
  d : Nat
  e : Nat
  f : Nat
  g : Nat
  h : Nat

/-- SHA-256 round constants. -/
def sha256K : List Nat :=
  [1116352408, 1899447441, 3049323471, 3921009573, 961987163, 1508970993,
   2453635748, 2870763221, 3624381080, 310598401, 607225278, 1426881987,
   1925078388, 2162078206, 2614888103, 3248222580, 3835390401, 4022224774,
   264347078, 604807628, 770255983, 1249150122, 1555081692, 1996064986,
   2554220882, 2821834349, 2952996808, 3210313671, 3336571891, 3584528711,
   113926993, 338241895, 666307205, 773529912, 1294757372, 1396182291,
   1695183700, 1986661051, 2177026350, 2456956037, 2730485921, 2820302411,
   3259730800, 3345764771, 3516065817, 3600352804, 4094571909, 275423344,
   430227734, 506948616, 659060556, 883997877, 958139571, 1322822218,
   1537002063, 1747873779, 1955562222, 2024104815, 2227730452, 2361852424,
   2428436474, 2756734187, 3204031479, 3329325298]

/-- SHA-256 initial hash value. -/
def sha256H0 : Hash8 :=
  ⟨1779033703, 3144134277, 1013904242, 2773480762,
   1359893119, 2600822924, 528734635, 1541459225⟩

/-- Message-schedule extension step count for SHA-256 is 48; each step appends
one word computed from earlier words, all arithmetic mod 2^32. -/
def sha256Extend : Nat → List Nat → List Nat
  | 0, w => w
  | n + 1, w =>
    let i := w.length
    let s0 :=
      rotr32 (w.getD (i - 15) 0) 7 ^^^ rotr32 (w.getD (i - 15) 0) 18 ^^^
        (w.getD (i - 15) 0 >>> 3)
    let s1 :=
      rotr32 (w.getD (i - 2) 0) 17 ^^^ rotr32 (w.getD (i - 2) 0) 19 ^^^
        (w.getD (i - 2) 0 >>> 10)
    sha256Extend n
      (w ++ [(w.getD (i - 16) 0 + s0 + w.getD (i - 7) 0 + s1) % 4294967296])

/-- One SHA-256 compression round. -/
def sha256Round (st : Hash8) (kw : Nat × Nat) : Hash8 :=
  let s1 := rotr32 st.e 6 ^^^ rotr32 st.e 11 ^^^ rotr32 st.e 25
  let ch := (st.e &&& st.f) ^^^ ((st.e ^^^ 4294967295) &&& st.g)
  let t1 := (st.h + s1 + ch + kw.1 + kw.2) % 4294967296
  let s0 := rotr32 st.a 2 ^^^ rotr32 st.a 13 ^^^ rotr32 st.a 22
  let mj := (st.a &&& st.b) ^^^ (st.a &&& st.c) ^^^ (st.b &&& st.c)
  let t2 := (s0 + mj) % 4294967296
  ⟨(t1 + t2) % 4294967296, st.a, st.b, st.c,
   (st.d + t1) % 4294967296, st.e, st.f, st.g⟩

/-- Process one 64-byte SHA-256 block. -/
def sha256Block (st : Hash8) (block : List Nat) : Hash8 :=
  let w16 := [word32At block 0, word32At block 4, word32At block 8,
    word32At block 12, word32At block 16, word32At block 20,
    word32At block 24, word32At block 28, word32At block 32,
    word32At block 36, word32At block 40, word32At block 44,
    word32At block 48, word32At block 52, word32At block 56,
    word32At block 60]
  let w := sha256Extend 48 w16
  let fin := (sha256K.zip w).foldl sha256Round st
  ⟨(st.a + fin.a) % 4294967296, (st.b + fin.b) % 4294967296,
   (st.c + fin.c) % 4294967296, (st.d + fin.d) % 4294967296,
   (st.e + fin.e) % 4294967296, (st.f + fin.f) % 4294967296,
   (st.g + fin.g) % 4294967296, (st.h + fin.h) % 4294967296⟩

/-- Fold SHA-256 blocks over the padded message; fuel bounds recursion. -/
def sha256Blocks : Nat → Hash8 → List Nat → Hash8
  | 0, st, _ => st
  | _ + 1, st, [] => st
  | fuel + 1, st, l => sha256Blocks fuel (sha256Block st (l.take 64)) (l.drop 64)

/-- SHA-256 of a byte sequence (crypto/sha256.Sum256). -/
def sha256Bytes (msg : List Nat) : List Nat :=
  let padded :=
    msg ++ [128] ++ List.replicate ((64 - (msg.length + 9) % 64) % 64) 0 ++
      be64 (8 * msg.length)
  let st := sha256Blocks (padded.length + 1) sha256H0 padded
  be32 st.a ++ be32 st.b ++ be32 st.c ++ be32 st.d ++
    be32 st.e ++ be32 st.f ++ be32 st.g ++ be32 st.h

/-- Lowercase hex digit. -/
def hexDigit (n : Nat) : Char :=
  if n < 10 then Char.ofNat (48 + n) else Char.ofNat (87 + n)

/-- Lowercase hex of a byte sequence (fmt %x). -/
def bytesToHexChars (l : List Nat) : List Char :=
  l.flatMap fun b => [hexDigit (b / 16), hexDigit (b % 16)]

/-- Hex-encoded SHA-256 of a string, as client.go computes with
fmt.Sprintf("%x", sha256.Sum256([]byte(s))). -/
def sha256Hex (s : String) : String :=
  String.mk (bytesToHexChars (sha256Bytes (strBytes s)))

/-- SHA-512 round constants. -/
def sha512K : List Nat :=
  [4794697086780616226, 8158064640168781261, 13096744586834688815,
   16840607885511220156, 4131703408338449720, 6480981068601479193,
   10538285296894168987, 12329834152419229976, 15566598209576043074,
   1334009975649890238, 2608012711638119052, 6128411473006802146,
   8268148722764581231, 9286055187155687089, 11230858885718282805,
   13951009754708518548, 16472876342353939154, 17275323862435702243,
   1135362057144423861, 2597628984639134821, 3308224258029322869,
   5365058923640841347, 6679025012923562964, 8573033837759648693,
   10970295158949994411, 12119686244451234320, 12683024718118986047,
   13788192230050041572, 14330467153632333762, 15395433587784984357,
   489312712824947311, 1452737877330783856, 2861767655752347644,
   3322285676063803686, 5560940570517711597, 5996557281743188959,
   7280758554555802590, 8532644243296465576, 9350256976987008742,
   10552545826968843579, 11727347734174303076, 12113106623233404929,
   14000437183269869457, 14369950271660146224, 15101387698204529176,
   15463397548674623760, 17586052441742319658, 1182934255886127544,
   1847814050463011016, 2177327727835720531, 2830643537854262169,
   3796741975233480872, 4115178125766777443, 5681478168544905931,
   6601373596472566643, 7507060721942968483, 8399075790359081724,
   8693463985226723168, 9568029438360202098, 10144078919501101548,
   10430055236837252648, 11840083180663258601, 13761210420658862357,
   14299343276471374635, 14566680578165727644, 15097957966210449927,
   16922976911328602910, 17689382322260857208, 500013540394364858,
   748580250866718886, 1242879168328830382, 1977374033974150939,
   2944078676154940804, 3659926193048069267, 4368137639120453308,
   4836135668995329356, 5532061633213252278, 6448918945643986474,
   6902733635092675308, 7801388544844847127]

/-- SHA-512 initial hash value. -/
def sha512H0 : Hash8 :=
  ⟨7640891576956012808, 13503953896175478587, 4354685564936845355,
   11912009170470909681, 5840696475078001361, 11170449401992604703,
   2270897969802886507, 6620516959819538809⟩

/-- Message-schedule extension for SHA-512 (64 steps, arithmetic mod 2^64). -/
def sha512Extend : Nat → List Nat → List Nat
  | 0, w => w
  | n + 1, w =>
    let i := w.length
    let s0 :=
      rotr64 (w.getD (i - 15) 0) 1 ^^^ rotr64 (w.getD (i - 15) 0) 8 ^^^
        (w.getD (i - 15) 0 >>> 7)
    let s1 :=
      rotr64 (w.getD (i - 2) 0) 19 ^^^ rotr64 (w.getD (i - 2) 0) 61 ^^^
        (w.getD (i - 2) 0 >>> 6)
    sha512Extend n
      (w ++
        [(w.getD (i - 16) 0 + s0 + w.getD (i - 7) 0 + s1) %
          18446744073709551616])

/-- One SHA-512 compression round. -/
def sha512Round (st : Hash8) (kw : Nat × Nat) : Hash8 :=
  let s1 := rotr64 st.e 14 ^^^ rotr64 st.e 18 ^^^ rotr64 st.e 41
  let ch := (st.e &&& st.f) ^^^ ((st.e ^^^ 18446744073709551615) &&& st.g)
  let t1 := (st.h + s1 + ch + kw.1 + kw.2) % 18446744073709551616
  let s0 := rotr64 st.a 28 ^^^ rotr64 st.a 34 ^^^ rotr64 st.a 39
  let mj := (st.a &&& st.b) ^^^ (st.a &&& st.c) ^^^ (st.b &&& st.c)
  let t2 := (s0 + mj) % 18446744073709551616
  ⟨(t1 + t2) % 18446744073709551616, st.a, st.b, st.c,
   (st.d + t1) % 18446744073709551616, st.e, st.f, st.g⟩

/-- Process one 128-byte SHA-512 block. -/
def sha512Block (st : Hash8) (block : List Nat) : Hash8 :=
  let w16 := [word64At block 0, word64At block 8, word64At block 16,
    word64At block 24, word64At block 32, word64At block 40,
    word64At block 48, word64At block 56, word64At block 64,
    word64At block 72, word64At block 80, word64At block 88,
    word64At block 96, word64At block 104, word64At block 112,
    word64At block 120]
  let w := sha512Extend 64 w16
  let fin := (sha512K.zip w).foldl sha512Round st
  ⟨(st.a + fin.a) % 18446744073709551616, (st.b + fin.b) % 18446744073709551616,
   (st.c + fin.c) % 18446744073709551616, (st.d + fin.d) % 18446744073709551616,
   (st.e + fin.e) % 18446744073709551616, (st.f + fin.f) % 18446744073709551616,
   (st.g + fin.g) % 18446744073709551616,
   (st.h + fin.h) % 18446744073709551616⟩

/-- Fold SHA-512 blocks over the padded message; fuel bounds recursion. -/
def sha512Blocks : Nat → Hash8 → List Nat → Hash8
  | 0, st, _ => st
  | _ + 1, st, [] => st
  | fuel + 1, st, l =>
    sha512Blocks fuel (sha512Block st (l.take 128)) (l.drop 128)

/-- SHA-512 of a byte sequence (crypto/sha512). -/
def sha512Bytes (msg : List Nat) : List Nat :=
  let padded :=
    msg ++ [128] ++ List.replicate ((128 - (msg.length + 17) % 128) % 128) 0 ++
      List.replicate 8 0 ++ be64 (8 * msg.length)
  let st := sha512Blocks (padded.length + 1) sha512H0 padded
  be64 st.a ++ be64 st.b ++ be64 st.c ++ be64 st.d ++
    be64 st.e ++ be64 st.f ++ be64 st.g ++ be64 st.h

/-- HMAC-SHA512 (crypto/hmac with sha512.New): keys longer than the 128-byte
block size are first hashed, shorter keys zero-padded. -/
def hmacSha512 (key msg : List Nat) : List Nat :=
  let k0 := if 128 < key.length then sha512Bytes key else key
  let kp := k0 ++ List.replicate (128 - k0.length) 0
  let ipad := kp.map fun b => b ^^^ 54
  let opad := kp.map fun b => b ^^^ 92
  sha512Bytes (opad ++ sha512Bytes (ipad ++ msg))

/-- Character of the standard base64 alphabet. -/
def b64Char (n : Nat) : Char :=
  if n < 26 then Char.ofNat (65 + n)
  else if n < 52 then Char.ofNat (71 + n)
  else if n < 62 then Char.ofNat (n - 4)
  else if n = 62 then Char.ofNat 43
  else Char.ofNat 47

/-- Standard base64 encoding, three input bytes per four output characters,
with trailing padding; fuel bounds recursion. -/
def b64Groups : Nat → List Nat → List Char
  | 0, _ => []
  | _ + 1, [] => []
  | _ + 1, [b1] =>
    [b64Char (b1 / 4), b64Char (b1 % 4 * 16), Char.ofNat 61, Char.ofNat 61]
  | _ + 1, [b1, b2] =>
    [b64Char (b1 / 4), b64Char (b1 % 4 * 16 + b2 / 16),
     b64Char (b2 % 16 * 4), Char.ofNat 61]
  | fuel + 1, b1 :: b2 :: b3 :: rest =>
    b64Char (b1 / 4) :: b64Char (b1 % 4 * 16 + b2 / 16) ::
      b64Char (b2 % 16 * 4 + b3 / 64) :: b64Char (b3 % 64) ::
        b64Groups fuel rest

/-- encoding/base64 StdEncoding.EncodeToString. -/
def base64Encode (l : List Nat) : String :=
  String.mk (b64Groups (l.length + 1) l)

/-- base64(HMAC-SHA512(key, msg)) over strings, the composite client.go
performs with hmac.New(sha512.New, []byte(secret)) and
base64.StdEncoding.EncodeToString. -/
def hmacSha512Base64 (key msg : String) : String :=
  base64Encode (hmacSha512 (strBytes key) (strBytes msg))

/-! ### Signature engine and request dispatcher (client.go) -/

/-- The Client struct of client.go restricted to the fields the embedded
operations read: credentials, base URL, and the mutable token state
(accessToken, tokenExpiry).  tokenExpiry is a wall-clock instant, modelled
as Int. -/
structure ClientState where
  baseURL : String
  partnerID : String
  clientID : String
  clientSecret : String
  privateKey : String
  channelID : String
  accessToken : String
  tokenExpiry : Int
deriving DecidableEq

/-- The signature payload built inside Client.calculateSignature
(client.go lines 154-172): the body is ignored for GET or when empty, the
body hash is the hex SHA-256 of the (possibly emptied) body, and the payload
is METHOD:PATH:ACCESS_TOKEN:BODY_HASH_HEX:TIMESTAMP.  The timestamp is the
generateTimestamp() wall-clock reading taken inside calculateSignature,
passed here as the explicit argument timestamp. -/
def signaturePayload (accessToken httpMethod requestPath requestBody timestamp : String) :
    String :=
  let bodyStr := if httpMethod ≠ "GET" ∧ requestBody ≠ "" then requestBody else ""
  let payloadHash := if bodyStr ≠ "" then sha256Hex bodyStr else sha256Hex ""
  httpMethod ++ ":" ++ requestPath ++ ":" ++ accessToken ++ ":" ++ payloadHash ++
    ":" ++ timestamp

/-- Client.calculateSignature (client.go lines 154-180): HMAC-SHA512 of the
signature payload keyed with the client secret, base64-encoded.  The Go
function reads clientSecret and accessToken from the receiver and the
timestamp from the wall clock; they are explicit arguments here. -/
def calculateSignature
    (clientSecret accessToken httpMethod requestPath requestBody timestamp : String) :
    String :=
  hmacSha512Base64 clientSecret
    (signaturePayload accessToken httpMethod requestPath requestBody timestamp)

/-- An assembled HTTP request, carrying what client.go sets on http.Request:
method, absolute URL, headers in order, and the optional JSON body. -/
structure HttpRequest where
  method : String
  url : String
  headers : List (String × String)
  body : Option String
deriving DecidableEq

/-- Client.makeRequest (client.go lines 183-246) up to the transport call:
assembles the signed request.  body is the JSON-serialized request body
(none for a nil body).  makeRequest reads the wall clock twice through
generateTimestamp(): once inside calculateSignature (line 170) and once for
the X-TIMESTAMP header (line 211); the two successive readings enter as
sigClock and headerClock.  externalID is the generateExternalID() draw. -/
def makeRequest (c : ClientState) (method path : String) (body : Option String)
    (sigClock headerClock externalID : String) : HttpRequest :=
  let bodyStr := match body with | some b => b | none => ""
  let signature :=
    calculateSignature c.clientSecret c.accessToken method path bodyStr sigClock
  { method := method
    url := c.baseURL ++ path
    headers :=
      [("Content-Type", "application/json"),
       ("X-PARTNER-ID", c.partnerID),
       ("X-EXTERNAL-ID", externalID),
       ("CHANNEL-ID", c.channelID),
       ("X-SIGNATURE", signature),
       ("X-TIMESTAMP", headerClock)] ++
        (if c.accessToken ≠ "" then [("Authorization", "Bearer " ++ c.accessToken)]
         else [])
    body := body }

/-- First value set for a header name on an assembled request. -/
def headerValue (r : HttpRequest) (k : String) : Option String :=
  r.headers.lookup k

/-! ### Response-code catalog (src/unnamed/part_001) -/

/-- The HttpCategory enumeration (src/unnamed/part_001 lines 13-25). -/
inductive HttpCategory where
  | CategorySuccess
  | CategoryBadRequest
  | CategoryUnauthorized
  | CategoryForbidden
  | CategoryNotFound
  | CategoryMethodNotAllowed
  | CategoryConflict
  | CategoryInternalServerError
  | CategoryBadGateway
  | CategoryServiceUnavailable
  | CategoryPending
deriving DecidableEq

/-- BRIResponseCode (src/unnamed/part_001 lines 30-35): a structured 7-digit
code, HTTPSTATUS(3) + SERVICECODE(2) + CASECODE(2). -/
structure BRIResponseCode where
  HTTPStatus : Int
  ServiceCode : Int
  CaseCode : Int
  FullCode : String
deriving DecidableEq

/-- BRIVAResponseDefinition (src/unnamed/part_001 lines 73-78).  The Go Field
member defaults to the empty string when omitted from an entry. -/
structure BRIVAResponseDefinition where
  ResponseCode : BRIResponseCode
  Category : HttpCategory
  Description : String
  Field : String
deriving DecidableEq
/-- The static response-code catalog brivaResponseDefinitions (src/unnamed/part_001 lines 81-462), in source order.  Go map iteration order is irrelevant: only keyed lookup is performed, and the 67 keys are distinct. -/
def brivaResponseDefinitions : List (String × BRIVAResponseDefinition) :=
  [   ("2002600",
    ⟨⟨200, 26, 0, "2002600"⟩, HttpCategory.CategorySuccess,
     "Inquiry status successful", ""⟩),
   ("2002700",
    ⟨⟨200, 27, 0, "2002700"⟩, HttpCategory.CategorySuccess,
     "Request processed successfully", ""⟩),
   ("2002701",
    ⟨⟨200, 27, 1, "2002701"⟩, HttpCategory.CategorySuccess,
     "Virtual Account created successfully", ""⟩),
   ("2002800",
    ⟨⟨200, 28, 0, "2002800"⟩, HttpCategory.CategorySuccess,
     "Virtual Account updated successfully", ""⟩),
   ("2002900",
    ⟨⟨200, 29, 0, "2002900"⟩, HttpCategory.CategorySuccess,
     "Virtual Account status updated successfully", ""⟩),
   ("2003000",
    ⟨⟨200, 30, 0, "2003000"⟩, HttpCategory.CategorySuccess,
     "Virtual Account inquiry successful", ""⟩),
   ("2003100",
    ⟨⟨200, 31, 0, "2003100"⟩, HttpCategory.CategorySuccess,
     "Virtual Account deleted successfully", ""⟩),
   ("2003500",
    ⟨⟨200, 35, 0, "2003500"⟩, HttpCategory.CategorySuccess,
     "Report generated successfully", ""⟩),
   ("4002701",
    ⟨⟨400, 27, 1, "4002701"⟩, HttpCategory.CategoryBadRequest,
     "Invalid field format", "virtualAccountNo"⟩),
   ("4002702",
    ⟨⟨400, 27, 2, "4002702"⟩, HttpCategory.CategoryBadRequest,
     "Invalid mandatory field", "partnerServiceId"⟩),
   ("4002703",
    ⟨⟨400, 27, 3, "4002703"⟩, HttpCategory.CategoryBadRequest,
     "Invalid field value", ""⟩),
   ("4002704",
    ⟨⟨400, 27, 4, "4002704"⟩, HttpCategory.CategoryBadRequest,
     "Invalid amount format or value", "totalAmount"⟩),
   ("4002705",
    ⟨⟨400, 27, 5, "4002705"⟩, HttpCategory.CategoryBadRequest,
     "Invalid account information", ""⟩),
   ("4002706",
    ⟨⟨400, 27, 6, "4002706"⟩, HttpCategory.CategoryBadRequest,
     "Invalid date format", "expiredDate"⟩),
   ("4002707",
    ⟨⟨400, 27, 7, "4002707"⟩, HttpCategory.CategoryBadRequest,
     "Invalid time format", ""⟩),
   ("4002708",
    ⟨⟨400, 27, 8, "4002708"⟩, HttpCategory.CategoryBadRequest,
     "Invalid currency code", "currency"⟩),
   ("4002709",
    ⟨⟨400, 27, 9, "4002709"⟩, HttpCategory.CategoryBadRequest,
     "Invalid partner service ID", "partnerServiceId"⟩),
   ("4002710",
    ⟨⟨400, 27, 10, "4002710"⟩, HttpCategory.CategoryBadRequest,
     "Invalid customer number", "customerNo"⟩),
   ("4002711",
    ⟨⟨400, 27, 11, "4002711"⟩, HttpCategory.CategoryBadRequest,
     "Invalid virtual account number", "virtualAccountNo"⟩),
   ("4002712",
    ⟨⟨400, 27, 12, "4002712"⟩, HttpCategory.CategoryBadRequest,
     "Invalid virtual account name", "virtualAccountName"⟩),
   ("4002713",
    ⟨⟨400, 27, 13, "4002713"⟩, HttpCategory.CategoryBadRequest,
     "Invalid transaction ID", "trxId"⟩),
   ("4002714",
    ⟨⟨400, 27, 14, "4002714"⟩, HttpCategory.CategoryBadRequest,
     "Invalid paid status", "paidStatus"⟩),
   ("4002715",
    ⟨⟨400, 27, 15, "4002715"⟩, HttpCategory.CategoryBadRequest,
     "Invalid inquiry request ID", "inquiryRequestId"⟩),
   ("4002716",
    ⟨⟨400, 27, 16, "4002716"⟩, HttpCategory.CategoryBadRequest,
     "Invalid report date range", "startDate"⟩),
   ("4002717",
    ⟨⟨400, 27, 17, "4002717"⟩, HttpCategory.CategoryBadRequest,
     "Invalid report time range", "startTime"⟩),
   ("4002600",
    ⟨⟨400, 26, 0, "4002600"⟩, HttpCategory.CategoryBadRequest,
     "Bad Request", ""⟩),
   ("4002601",
    ⟨⟨400, 26, 1, "4002601"⟩, HttpCategory.CategoryBadRequest,
     "Invalid Field Format", ""⟩),
   ("4002602",
    ⟨⟨400, 26, 2, "4002602"⟩, HttpCategory.CategoryBadRequest,
     "Invalid Mandatory Field", ""⟩),
   ("4012701",
    ⟨⟨401, 27, 1, "4012701"⟩, HttpCategory.CategoryUnauthorized,
     "Invalid signature", ""⟩),
   ("4012702",
    ⟨⟨401, 27, 2, "4012702"⟩, HttpCategory.CategoryUnauthorized,
     "Invalid timestamp", ""⟩),
   ("4012703",
    ⟨⟨401, 27, 3, "4012703"⟩, HttpCategory.CategoryUnauthorized,
     "Invalid access token", ""⟩),
   ("4012704",
    ⟨⟨401, 27, 4, "4012704"⟩, HttpCategory.CategoryUnauthorized,
     "Access token expired", ""⟩),
   ("4012705",
    ⟨⟨401, 27, 5, "4012705"⟩, HttpCategory.CategoryUnauthorized,
     "Invalid credentials", ""⟩),
   ("4012706",
    ⟨⟨401, 27, 6, "4012706"⟩, HttpCategory.CategoryUnauthorized,
     "Invalid client key", ""⟩),
   ("4012707",
    ⟨⟨401, 27, 7, "4012707"⟩, HttpCategory.CategoryUnauthorized,
     "Invalid private key", ""⟩),
   ("4012600",
    ⟨⟨401, 26, 0, "4012600"⟩, HttpCategory.CategoryUnauthorized,
     "Unauthorized. Client Forbidden Access API", ""⟩),
   ("4032701",
    ⟨⟨403, 27, 1, "4032701"⟩, HttpCategory.CategoryForbidden,
     "Insufficient permission", ""⟩),
   ("4032702",
    ⟨⟨403, 27, 2, "4032702"⟩, HttpCategory.CategoryForbidden,
     "Access denied", ""⟩),
   ("4032703",
    ⟨⟨403, 27, 3, "4032703"⟩, HttpCategory.CategoryForbidden,
     "Partner not active", ""⟩),
   ("4032704",
    ⟨⟨403, 27, 4, "4032704"⟩, HttpCategory.CategoryForbidden,
     "Channel not allowed", ""⟩),
   ("4032705",
    ⟨⟨403, 27, 5, "4032705"⟩, HttpCategory.CategoryForbidden,
     "IP not whitelisted", ""⟩),
   ("4042701",
    ⟨⟨404, 27, 1, "4042701"⟩, HttpCategory.CategoryNotFound,
     "Virtual Account not found", ""⟩),
   ("4042702",
    ⟨⟨404, 27, 2, "4042702"⟩, HttpCategory.CategoryNotFound,
     "Customer not found", ""⟩),
   ("4042703",
    ⟨⟨404, 27, 3, "4042703"⟩, HttpCategory.CategoryNotFound,
     "Partner service not found", ""⟩),
   ("4042704",
    ⟨⟨404, 27, 4, "4042704"⟩, HttpCategory.CategoryNotFound,
     "Transaction not found", ""⟩),
   ("4042612",
    ⟨⟨404, 26, 12, "4042612"⟩, HttpCategory.CategoryNotFound,
     "Invalid Bill/Virtual Account", ""⟩),
   ("4042613",
    ⟨⟨404, 26, 13, "4042613"⟩, HttpCategory.CategoryNotFound,
     "Invalid Amount", ""⟩),
   ("4052701",
    ⟨⟨405, 27, 1, "4052701"⟩, HttpCategory.CategoryMethodNotAllowed,
     "HTTP method not allowed", ""⟩),
   ("4052702",
    ⟨⟨405, 27, 2, "4052702"⟩, HttpCategory.CategoryMethodNotAllowed,
     "HTTP method not allowed for this endpoint", ""⟩),
   ("4092701",
    ⟨⟨409, 27, 1, "4092701"⟩, HttpCategory.CategoryConflict,
     "Virtual Account already exists", ""⟩),
   ("4092702",
    ⟨⟨409, 27, 2, "4092702"⟩, HttpCategory.CategoryConflict,
     "Virtual Account number already exists", ""⟩),
   ("4092703",
    ⟨⟨409, 27, 3, "4092703"⟩, HttpCategory.CategoryConflict,
     "Transaction ID already exists", ""⟩),
   ("4092704",
    ⟨⟨409, 27, 4, "4092704"⟩, HttpCategory.CategoryConflict,
     "Customer number already exists", ""⟩),
   ("4092601",
    ⟨⟨409, 26, 1, "4092601"⟩, HttpCategory.CategoryConflict,
     "Conflict", ""⟩),
   ("5002701",
    ⟨⟨500, 27, 1, "5002701"⟩, HttpCategory.CategoryInternalServerError,
     "Internal server error", ""⟩),
   ("5002702",
    ⟨⟨500, 27, 2, "5002702"⟩, HttpCategory.CategoryInternalServerError,
     "Database error", ""⟩),
   ("5002703",
    ⟨⟨500, 27, 3, "5002703"⟩, HttpCategory.CategoryInternalServerError,
     "External service error", ""⟩),
   ("5002704",
    ⟨⟨500, 27, 4, "5002704"⟩, HttpCategory.CategoryInternalServerError,
     "System under maintenance", ""⟩),
   ("5002705",
    ⟨⟨500, 27, 5, "5002705"⟩, HttpCategory.CategoryInternalServerError,
     "System unavailable", ""⟩),
   ("5002600",
    ⟨⟨500, 26, 0, "5002600"⟩, HttpCategory.CategoryInternalServerError,
     "General Error", ""⟩),
   ("5022701",
    ⟨⟨502, 27, 1, "5022701"⟩, HttpCategory.CategoryBadGateway,
     "Bad gateway", ""⟩),
   ("5022702",
    ⟨⟨502, 27, 2, "5022702"⟩, HttpCategory.CategoryBadGateway,
     "External service timeout", ""⟩),
   ("5042700",
    ⟨⟨504, 27, 0, "5042700"⟩, HttpCategory.CategoryServiceUnavailable,
     "Timeout", ""⟩),
   ("5042600",
    ⟨⟨504, 26, 0, "5042600"⟩, HttpCategory.CategoryServiceUnavailable,
     "Timeout", ""⟩),
   ("5032701",
    ⟨⟨503, 27, 1, "5032701"⟩, HttpCategory.CategoryServiceUnavailable,
     "Service unavailable", ""⟩),
   ("5032702",
    ⟨⟨503, 27, 2, "5032702"⟩, HttpCategory.CategoryServiceUnavailable,
     "Rate limit exceeded", ""⟩),
   ("5032703",
    ⟨⟨503, 27, 3, "5032703"⟩, HttpCategory.CategoryServiceUnavailable,
     "Circuit breaker open", ""⟩)]

/-- isDigitString (src/unnamed/part_001 lines 613-620): true iff every
character is an ASCII digit (the Go loop returns false on the first
character outside ASCII 0-9). -/
def isDigitString (s : String) : Bool :=
  s.data.all fun c => !(decide (c < '0') || decide ('9' < c))

/-- strconv.Atoi as used by this package: an optional sign followed by a
non-empty run of ASCII digits, none on anything else.  (Overflow is ignored:
the package only parses 3-character slices.) -/
def digitsVal : Nat → List Char → Option Nat
  | acc, [] => some acc
  | acc, c :: cs =>
    if decide ('0' ≤ c) && decide (c ≤ '9') then
      digitsVal (acc * 10 + (c.toNat - 48)) cs
    else none

/-- strconv.Atoi, continued: dispatch on the optional sign. -/
def goAtoi (s : String) : Option Int :=
  match s.data with
  | [] => none
  | c :: cs =>
    if c = '+' then
      match cs with
      | [] => none
      | _ => (digitsVal 0 cs).map fun n => (n : Int)
    else if c = '-' then
      match cs with
      | [] => none
      | _ => (digitsVal 0 cs).map fun n => -(n : Int)
    else (digitsVal 0 (c :: cs)).map fun n => (n : Int)

/-- getPendingResponseDefinition (src/unnamed/part_001 lines 476-509):
synthesizes a definition for a code missing from the catalog.  Go slices the
first three bytes with code[0:3]; on the guarded path the code is ASCII so
this is the first three characters, modelled as String.mk (code.data.take 3).
The HTTP status defaults to 500 unless the code is exactly 7 ASCII digits and
its first three characters parse; the category is derived from the status
bands of the Go switch. -/
def getPendingResponseDefinition (code : String) : BRIVAResponseDefinition :=
  let httpStatus : Int :=
    if code.length = 7 ∧ isDigitString code = true then
      match goAtoi (String.mk (code.data.take 3)) with
      | some status => status
      | none => 500
    else 500
  let category : HttpCategory :=
    if 200 ≤ httpStatus ∧ httpStatus < 300 then HttpCategory.CategorySuccess
    else if 400 ≤ httpStatus ∧ httpStatus < 500 then HttpCategory.CategoryBadRequest
    else if 500 ≤ httpStatus ∧ httpStatus < 600 then
      HttpCategory.CategoryInternalServerError
    else HttpCategory.CategoryPending
  { ResponseCode := ⟨httpStatus, 0, 0, code⟩
    Category := category
    Description :=
      "Unknown response code: " ++ code ++
        " - Status pending, requires manual verification"
    Field := "" }

/-- GetBRIVAResponseDefinition (src/unnamed/part_001 lines 465-473): exact
catalog lookup, falling back to the synthesized pending definition. -/
def GetBRIVAResponseDefinition (code : String) : BRIVAResponseDefinition :=
  match brivaResponseDefinitions.lookup code with
  | some definition => definition
  | none => getPendingResponseDefinition code

/-! ### Structured API errors (src/unnamed/part_001, src/client.go) -/

/-- StructuredBRIAPIResponse.  src/unnamed/part_001 lines 512-517 declare the
fields ResponseCode, ResponseMessage, HTTPStatusCode, Timestamp; the
construction sites in src/client.go (e.g. lines 295-301) additionally set a
ResponseDefinition member, included here as an Option.  Timestamp is the
time.Now() instant, modelled as Int. -/
structure StructuredBRIAPIResponse where
  ResponseCode : String
  ResponseMessage : String
  ResponseDefinition : Option BRIVAResponseDefinition
  HTTPStatusCode : Int
  Timestamp : Int
deriving DecidableEq

/-- GetCategory (src/unnamed/part_001 lines 560-571): the category is derived
from the HTTP status code of the response alone, by bands. -/
def StructuredBRIAPIResponse.GetCategory (e : StructuredBRIAPIResponse) : HttpCategory :=
  if 200 ≤ e.HTTPStatusCode ∧ e.HTTPStatusCode < 300 then HttpCategory.CategorySuccess
  else if 400 ≤ e.HTTPStatusCode ∧ e.HTTPStatusCode < 500 then
    HttpCategory.CategoryBadRequest
  else if 500 ≤ e.HTTPStatusCode ∧ e.HTTPStatusCode < 600 then
    HttpCategory.CategoryInternalServerError
  else HttpCategory.CategoryPending

/-- IsPending (src/unnamed/part_001 lines 584-586). -/
def StructuredBRIAPIResponse.IsPending (e : StructuredBRIAPIResponse) : Bool :=
  e.GetCategory = HttpCategory.CategoryPending

/-- ErrorResponse (src/client.go lines 256-259), the decoded non-200 body;
its Go zero value is a pair of empty strings. -/
structure ErrorResponse where
  responseCode : String
  responseMessage : String
deriving DecidableEq

/-- AuthResponse (src/client.go lines 249-253), the decoded token-exchange
body. -/
structure AuthResponse where
  AccessToken : String
  TokenType : String
  ExpiresIn : Int
deriving DecidableEq

/-- An http.Response as the operations consume it: status code and the bytes
io.ReadAll produced from the body. -/
structure HttpResponse where
  StatusCode : Int
  Body : String
deriving DecidableEq

/-! ### Virtual-account operations (src/client.go lines 272-556)

Each operation runs EnsureAuthenticated, sends the request through
makeRequest, reads the body, and classifies: a transport-level failure is
wrapped with fmt.Errorf (remaining a plain error), a non-200 status becomes
a StructuredBRIAPIResponse error whose code/message come from a best-effort
json.Unmarshal into ErrorResponse (the Unmarshal error is discarded, leaving
the zero value on parse failure), and a 200 status is json.Unmarshaled into
the operation response type, a failure there being wrapped as a plain error.

In the embedding, ensureAuth is the outcome of c.auth.EnsureAuthenticated
(none = success), transport the outcome of the HTTP exchange performed by
makeRequest (the request assembly itself is the separate makeRequest above),
unmarshalError / the per-operation decoder stand in for encoding/json
(none = parse failure), and now is the time.Now() reading stored in the
error's Timestamp field. -/

/-- The error taxonomy of a VA operation, by Go dynamic error type: plain
wrapped errors versus *StructuredBRIAPIResponse. -/
inductive VAError where
  | authFailed (msg : String)
  | requestFailed (msg : String)
  | structured (resp : StructuredBRIAPIResponse)
  | unmarshalFailed (msg : String)
deriving DecidableEq

/-- True exactly on a *StructuredBRIAPIResponse error result. -/
def isStructuredResult {ρ : Type} : Except VAError ρ → Bool
  | .error (.structured _) => true
  | _ => false

/-- Amount (model types file). -/
structure Amount where
  Value : String
  Currency : String
deriving DecidableEq

/-- AdditionalInfo (model types file). -/
structure AdditionalInfo where
  Description : String
deriving DecidableEq

/-- VirtualAccountData (model types file). -/
structure VirtualAccountData where
  InstitutionCode : String
  PartnerServiceID : String
  CustomerNo : String
  VirtualAccountNo : String
  VirtualAccountName : String
  TrxID : String
  TotalAmount : Amount
  ExpiredDate : String
  AdditionalInfo : AdditionalInfo
  PaidStatus : String
deriving DecidableEq

/-- FreeText (model types file). -/
structure FreeText where
  English : String
  Indonesia : String
deriving DecidableEq

/-- VirtualAccountTransaction (model types file). -/
structure VirtualAccountTransaction where
  PartnerServiceID : String
  CustomerNo : String
  VirtualAccountNo : String
  VirtualAccountName : String
  SourceAccountNo : String
  PaidAmount : Amount
  TrxDateTime : String
  TrxID : String
  InquiryRequestID : String
  PaymentRequestID : String
  TotalAmount : Amount
  FreeTexts : List FreeText
deriving DecidableEq

/-- CreateVirtualAccountResponse (model types file). -/
structure CreateVirtualAccountResponse where
  ResponseCode : String
  ResponseMessage : String
  VirtualAccountData : Option VirtualAccountData
deriving DecidableEq

/-- UpdateVirtualAccountResponse (model types file). -/
structure UpdateVirtualAccountResponse where
  ResponseCode : String
  ResponseMessage : String
  VirtualAccountData : Option VirtualAccountData
deriving DecidableEq

/-- UpdateVirtualAccountStatusResponse (model types file). -/
structure UpdateVirtualAccountStatusResponse where
  ResponseCode : String
  ResponseMessage : String
  VirtualAccountData : Option VirtualAccountData
deriving DecidableEq

/-- InquiryVirtualAccountResponse (model types file). -/
structure InquiryVirtualAccountResponse where
  ResponseCode : String
  ResponseMessage : String
  VirtualAccountData : Option VirtualAccountData
deriving DecidableEq

/-- DeleteVirtualAccountResponse (model types file). -/
structure DeleteVirtualAccountResponse where
  ResponseCode : String
  ResponseMessage : String
  VirtualAccountData : Option VirtualAccountData
deriving DecidableEq

/-- VirtualAccountReportResponse (model types file). -/
structure VirtualAccountReportResponse where
  ResponseCode : String
  ResponseMessage : String
  VirtualAccountData : List VirtualAccountTransaction
deriving DecidableEq

/-- InquiryVirtualAccountStatusResponse (model types file). -/
structure InquiryVirtualAccountStatusResponse where
  ResponseCode : String
  ResponseMessage : String
  VirtualAccountData : Option VirtualAccountData
  AdditionalInfo : AdditionalInfo
deriving DecidableEq

/-- Client.CreateVirtualAccount (src/client.go lines 272-310). -/
def CreateVirtualAccount
    (unmarshalError : String → Option ErrorResponse)
    (unmarshalResp : String → Option CreateVirtualAccountResponse)
    (ensureAuth : Option String) (transport : Except String HttpResponse)
    (now : Int) : Except VAError CreateVirtualAccountResponse :=
  match ensureAuth with
  | some e => .error (.authFailed ("authentication failed: " ++ e))
  | none =>
    match transport with
    | .error e =>
      .error (.requestFailed ("failed to make create virtual account request: " ++ e))
    | .ok resp =>
      if resp.StatusCode ≠ 200 then
        let errorResp := (unmarshalError resp.Body).getD ⟨"", ""⟩
        .error (.structured
          { ResponseCode := errorResp.responseCode
            ResponseMessage := errorResp.responseMessage
            ResponseDefinition := some (GetBRIVAResponseDefinition errorResp.responseCode)
            HTTPStatusCode := resp.StatusCode
            Timestamp := now })
      else
        match unmarshalResp resp.Body with
        | none =>
          .error (.unmarshalFailed "failed to unmarshal create virtual account response")
        | some r => .ok r

/-- Client.UpdateVirtualAccount (src/client.go lines 313-351). -/
def UpdateVirtualAccount
    (unmarshalError : String → Option ErrorResponse)
    (unmarshalResp : String → Option UpdateVirtualAccountResponse)
    (ensureAuth : Option String) (transport : Except String HttpResponse)
    (now : Int) : Except VAError UpdateVirtualAccountResponse :=
  match ensureAuth with
  | some e => .error (.authFailed ("authentication failed: " ++ e))
  | none =>
    match transport with
    | .error e =>
      .error (.requestFailed ("failed to make update virtual account request: " ++ e))
    | .ok resp =>
      if resp.StatusCode ≠ 200 then
        let errorResp := (unmarshalError resp.Body).getD ⟨"", ""⟩
        .error (.structured
          { ResponseCode := errorResp.responseCode
            ResponseMessage := errorResp.responseMessage
            ResponseDefinition := some (GetBRIVAResponseDefinition errorResp.responseCode)
            HTTPStatusCode := resp.StatusCode
            Timestamp := now })
      else
        match unmarshalResp resp.Body with
        | none =>
          .error (.unmarshalFailed "failed to unmarshal update virtual account response")
        | some r => .ok r

/-- Client.UpdateVirtualAccountStatus (src/client.go lines 354-392). -/
def UpdateVirtualAccountStatus
    (unmarshalError : String → Option ErrorResponse)
    (unmarshalResp : String → Option UpdateVirtualAccountStatusResponse)
    (ensureAuth : Option String) (transport : Except String HttpResponse)
    (now : Int) : Except VAError UpdateVirtualAccountStatusResponse :=
  match ensureAuth with
  | some e => .error (.authFailed ("authentication failed: " ++ e))
  | none =>
    match transport with
    | .error e =>
      .error
        (.requestFailed ("failed to make update virtual account status request: " ++ e))
    | .ok resp =>
      if resp.StatusCode ≠ 200 then
        let errorResp := (unmarshalError resp.Body).getD ⟨"", ""⟩
        .error (.structured
          { ResponseCode := errorResp.responseCode
            ResponseMessage := errorResp.responseMessage
            ResponseDefinition := some (GetBRIVAResponseDefinition errorResp.responseCode)
            HTTPStatusCode := resp.StatusCode
            Timestamp := now })
      else
        match unmarshalResp resp.Body with
        | none =>
          .error
            (.unmarshalFailed "failed to unmarshal update virtual account status response")
        | some r => .ok r

/-- Client.InquiryVirtualAccount (src/client.go lines 395-433). -/
def InquiryVirtualAccount
    (unmarshalError : String → Option ErrorResponse)
    (unmarshalResp : String → Option InquiryVirtualAccountResponse)
    (ensureAuth : Option String) (transport : Except String HttpResponse)
    (now : Int) : Except VAError InquiryVirtualAccountResponse :=
  match ensureAuth with
  | some e => .error (.authFailed ("authentication failed: " ++ e))
  | none =>
    match transport with
    | .error e =>
      .error (.requestFailed ("failed to make inquiry virtual account request: " ++ e))
    | .ok resp =>
      if resp.StatusCode ≠ 200 then
        let errorResp := (unmarshalError resp.Body).getD ⟨"", ""⟩
        .error (.structured
          { ResponseCode := errorResp.responseCode
            ResponseMessage := errorResp.responseMessage
            ResponseDefinition := some (GetBRIVAResponseDefinition errorResp.responseCode)
            HTTPStatusCode := resp.StatusCode
            Timestamp := now })
      else
        match unmarshalResp resp.Body with
        | none =>
          .error (.unmarshalFailed "failed to unmarshal inquiry virtual account response")
        | some r => .ok r

/-- Client.DeleteVirtualAccount (src/client.go lines 436-474). -/
def DeleteVirtualAccount
    (unmarshalError : String → Option ErrorResponse)
    (unmarshalResp : String → Option DeleteVirtualAccountResponse)
    (ensureAuth : Option String) (transport : Except String HttpResponse)
    (now : Int) : Except VAError DeleteVirtualAccountResponse :=
  match ensureAuth with
  | some e => .error (.authFailed ("authentication failed: " ++ e))
  | none =>
    match transport with
    | .error e =>
      .error (.requestFailed ("failed to make delete virtual account request: " ++ e))
    | .ok resp =>
      if resp.StatusCode ≠ 200 then
        let errorResp := (unmarshalError resp.Body).getD ⟨"", ""⟩
        .error (.structured
          { ResponseCode := errorResp.responseCode
            ResponseMessage := errorResp.responseMessage
            ResponseDefinition := some (GetBRIVAResponseDefinition errorResp.responseCode)
            HTTPStatusCode := resp.StatusCode
            Timestamp := now })
      else
        match unmarshalResp resp.Body with
        | none =>
          .error (.unmarshalFailed "failed to unmarshal delete virtual account response")
        | some r => .ok r

/-- Client.GetVirtualAccountReport (src/client.go lines 477-515). -/
def GetVirtualAccountReport
    (unmarshalError : String → Option ErrorResponse)
    (unmarshalResp : String → Option VirtualAccountReportResponse)
    (ensureAuth : Option String) (transport : Except String HttpResponse)
    (now : Int) : Except VAError VirtualAccountReportResponse :=
  match ensureAuth with
  | some e => .error (.authFailed ("authentication failed: " ++ e))
  | none =>
    match transport with
    | .error e =>
      .error (.requestFailed ("failed to make virtual account report request: " ++ e))
    | .ok resp =>
      if resp.StatusCode ≠ 200 then
        let errorResp := (unmarshalError resp.Body).getD ⟨"", ""⟩
        .error (.structured
          { ResponseCode := errorResp.responseCode
            ResponseMessage := errorResp.responseMessage
            ResponseDefinition := some (GetBRIVAResponseDefinition errorResp.responseCode)
            HTTPStatusCode := resp.StatusCode
            Timestamp := now })
      else
        match unmarshalResp resp.Body with
        | none =>
          .error (.unmarshalFailed "failed to unmarshal virtual account report response")
        | some r => .ok r

/-- Client.InquiryVirtualAccountStatus (src/client.go lines 518-556). -/
def InquiryVirtualAccountStatus
    (unmarshalError : String → Option ErrorResponse)
    (unmarshalResp : String → Option InquiryVirtualAccountStatusResponse)
    (ensureAuth : Option String) (transport : Except String HttpResponse)
    (now : Int) : Except VAError InquiryVirtualAccountStatusResponse :=
  match ensureAuth with
  | some e => .error (.authFailed ("authentication failed: " ++ e))
  | none =>
    match transport with
    | .error e =>
      .error
        (.requestFailed ("failed to make inquiry virtual account status request: " ++ e))
    | .ok resp =>
      if resp.StatusCode ≠ 200 then
        let errorResp := (unmarshalError resp.Body).getD ⟨"", ""⟩
        .error (.structured
          { ResponseCode := errorResp.responseCode
            ResponseMessage := errorResp.responseMessage
            ResponseDefinition := some (GetBRIVAResponseDefinition errorResp.responseCode)
            HTTPStatusCode := resp.StatusCode
            Timestamp := now })
      else
        match unmarshalResp resp.Body with
        | none =>
          .error
            (.unmarshalFailed "failed to unmarshal inquiry virtual account status response")
        | some r => .ok r

/-! ### Token lifecycle (src/client.go lines 120-141; authenticate modelled
from the spec) -/

/-- DefaultAuthenticator.IsAuthenticated (src/client.go lines 131-133):
accessToken non-empty and time.Now() strictly before tokenExpiry.  A pure
read: it is a function of the client state and the clock reading and returns
the state unchanged (nothing else is produced). -/
def IsAuthenticated (c : ClientState) (now : Int) : Bool :=
  (c.accessToken != "") && (decide (now < c.tokenExpiry))

/-- The failure modes of the authentication exchange, per spec §4.3/§7:
local key errors, transport errors (propagated, not wrapped), and the
bank-rejected exchange carrying the response's code and message. -/
inductive AuthFailure where
  | assertionError (msg : String)
  | transportError (msg : String)
  | apiError (code message : String)
  | decodeError
deriving DecidableEq

/-- Modelled from the spec: Client.authenticate is code of this repository
that is not under src (only its tests and its callers are).  Per spec §4.3,
authenticate builds a timestamp, computes the RSA assertion, issues the
token-exchange HTTP call, fails on assertion errors, propagates transport
errors, wraps a non-success status as a structured error with the response's
code and message, and on success parses accessToken and expiresIn from the
JSON body and stores {token, now + expiresIn seconds} as the new token
state, replacing any prior value.  assertion is the outcome of the RSA
signing step, transport the HTTP outcome, unmarshalAuth / unmarshalErr stand
in for encoding/json, and now is the clock reading (seconds). -/
def authenticate (c : ClientState) (now : Int)
    (assertion : Except String String)
    (transport : Except String HttpResponse)
    (unmarshalAuth : String → Option AuthResponse)
    (unmarshalErr : String → Option ErrorResponse) :
    Except AuthFailure ClientState :=
  match assertion with
  | .error e => .error (.assertionError e)
  | .ok _ =>
    match transport with
    | .error e => .error (.transportError e)
    | .ok resp =>
      if resp.StatusCode ≠ 200 then
        let er := (unmarshalErr resp.Body).getD ⟨"", ""⟩
        .error (.apiError er.responseCode er.responseMessage)
      else
        match unmarshalAuth resp.Body with
        | none => .error .decodeError
        | some r =>
          .ok { c with accessToken := r.AccessToken, tokenExpiry := now + r.ExpiresIn }

/-! ### Helper lemmas -/

/-- Strings with equal character data are equal. -/
theorem string_data_eq {s t : String} (h : s.data = t.data) : s = t := by
  cases s; cases t; cases h; rfl

/-- Data of an appended string. -/
theorem string_append_data (s t : String) : (s ++ t).data = s.data ++ t.data := rfl

/-- Hex encoding doubles the length. -/
theorem bytesToHexChars_length (l : List Nat) :
    (bytesToHexChars l).length = 2 * l.length := by
  induction l with
  | nil => rfl
  | cons b bs ih => simp [bytesToHexChars] at ih ⊢; omega

/-- A SHA-256 digest is 32 bytes. -/
theorem sha256Bytes_length (m : List Nat) : (sha256Bytes m).length = 32 := by
  simp [sha256Bytes, be32]

/-- A hex-encoded SHA-256 digest is 64 characters, whatever the input. -/
theorem sha256Hex_length (s : String) : (sha256Hex s).length = 64 := by
  show (bytesToHexChars (sha256Bytes (strBytes s))).length = 64
  rw [bytesToHexChars_length, sha256Bytes_length]

/-- The body-hash branch of calculateSignature collapses: hashing the body
string and hashing the empty string agree when the body string is empty. -/
theorem payloadHash_collapse (x : String) :
    (if x ≠ "" then sha256Hex x else sha256Hex "") = sha256Hex x := by
  by_cases h : x = "" <;> simp [h]

/-- The character data of the signature payload, in concatenated form. -/
theorem signaturePayload_data (tok m p b ts : String) :
    (signaturePayload tok m p b ts).data =
      m.data ++ ':' :: (p.data ++ ':' :: (tok.data ++ ':' ::
        ((sha256Hex (if m ≠ "GET" ∧ b ≠ "" then b else "")).data ++
          ':' :: ts.data))) := by
  simp [signaturePayload, payloadHash_collapse, string_append_data]
  by_cases h : ¬m = "GET" ∧ ¬b = "" <;> simp [h]

/-- digitsVal succeeds on a run of ASCII digits. -/
theorem digitsVal_some (l : List Char) (hd : ∀ c ∈ l, '0' ≤ c ∧ c ≤ '9') :
    ∀ acc : Nat, ∃ n, digitsVal acc l = some n := by
  induction l with
  | nil => intro acc; exact ⟨acc, rfl⟩
  | cons c cs ih =>
    intro acc
    have hc := hd c (List.mem_cons_self c cs)
    have hcs : ∀ x ∈ cs, '0' ≤ x ∧ x ≤ '9' := fun x hx => hd x (List.mem_cons_of_mem c hx)
    have hcond : (decide ('0' ≤ c) && decide (c ≤ '9')) = true := by
      simp [hc.1, hc.2]
    simp only [digitsVal, hcond, if_pos]
    exact ih hcs (acc * 10 + (c.toNat - 48))

/-- goAtoi succeeds on a non-empty all-digit string, with a nonnegative
value. -/
theorem goAtoi_digits (l : List Char) (hne : l ≠ [])
    (hd : ∀ c ∈ l, '0' ≤ c ∧ c ≤ '9') :
    ∃ n : Int, goAtoi (String.mk l) = some n ∧ 0 ≤ n := by
  match l, hne with
  | c :: cs, _ =>
    have hc := hd c (List.mem_cons_self c cs)
    have hplus : ¬(c = '+') := by
      intro h; rw [h] at hc; exact absurd hc.1 (by decide)
    have hminus : ¬(c = '-') := by
      intro h; rw [h] at hc; exact absurd hc.1 (by decide)
    obtain ⟨n, hn⟩ := digitsVal_some (c :: cs) hd 0
    refine ⟨(n : Int), ?_, Int.ofNat_nonneg n⟩
    simp only [goAtoi, hplus, hminus, if_neg, hn, Option.map_some]
    rfl

/-- A key-wise miss makes List.lookup return none. -/
theorem lookup_none_of_ne {β : Type} (l : List (String × β)) (k : String)
    (h : ∀ p ∈ l, k ≠ p.1) : l.lookup k = none := by
  induction l with
  | nil => rfl
  | cons hd tl ih =>
    obtain ⟨a, b⟩ := hd
    have htl : List.lookup k tl = none := ih fun p hp => h p (List.mem_cons_of_mem _ hp)
    have hne : k ≠ a := h (a, b) (List.mem_cons_self _ tl)
    have hbeq : (k == a) = false := beq_eq_false_iff_ne.mpr hne
    simpa [List.lookup, hbeq] using htl

/-- Every key of the static catalog is exactly 7 ASCII digits. -/
theorem briva_keys_shape :
    ∀ p ∈ brivaResponseDefinitions, p.1.length = 7 ∧ isDigitString p.1 = true := by
  decide

/-- A code that is not exactly 7 ASCII digits misses the catalog. -/
theorem lookup_none_of_shape (code : String)
    (h : ¬(code.length = 7 ∧ isDigitString code = true)) :
    brivaResponseDefinitions.lookup code = none := by
  refine lookup_none_of_ne _ _ fun p hp hk => ?_
  exact h (hk ▸ briva_keys_shape p hp)

/-- The digit-bound form of an isDigitString hypothesis. -/
theorem isDigitString_bounds (s : String) (h : isDigitString s = true) :
    ∀ c ∈ s.data, '0' ≤ c ∧ c ≤ '9' := by
  intro c hc
  have := List.all_eq_true.mp h c hc
  simp at this
  exact this

/-! ### Claims -/

/-- Claim C8: IsAuthenticated returns false whenever the stored access token
is the empty string, regardless of expiry; false whenever the current time is
not strictly before the stored expiry, regardless of token content; and true
exactly when the token is non-empty and the current time is strictly before
the expiry.  It mutates no state: the embedding of src/client.go lines
131-133 is a pure function of the client state and the clock reading,
producing only a Bool and leaving the state untouched. -/
theorem C8_is_authenticated (c : ClientState) (now : Int) :
    (c.accessToken = "" → IsAuthenticated c now = false) ∧
    (c.tokenExpiry ≤ now → IsAuthenticated c now = false) ∧
    (IsAuthenticated c now = true ↔ c.accessToken ≠ "" ∧ now < c.tokenExpiry) := by
  refine ⟨fun h => ?_, fun h => ?_, ?_⟩
  · simp [IsAuthenticated, h]
  · simp [IsAuthenticated, not_lt.mpr h]
  · simp [IsAuthenticated, Bool.and_eq_true, bne_iff_ne, decide_eq_true_eq]

/-- Witness for C8 at concrete states: empty token with future expiry is
unauthenticated, expired non-empty token is unauthenticated, non-empty token
with future expiry is authenticated. -/
theorem C8_witness :
    IsAuthenticated ⟨"u", "p", "i", "s", "k", "c", "", 10⟩ 0 = false ∧
    IsAuthenticated ⟨"u", "p", "i", "s", "k", "c", "tok", 10⟩ 20 = false ∧
    IsAuthenticated ⟨"u", "p", "i", "s", "k", "c", "tok", 10⟩ 0 = true :=
  ⟨(C8_is_authenticated ⟨"u", "p", "i", "s", "k", "c", "", 10⟩ 0).1 rfl,
   (C8_is_authenticated ⟨"u", "p", "i", "s", "k", "c", "tok", 10⟩ 20).2.1 (by decide),
   (C8_is_authenticated ⟨"u", "p", "i", "s", "k", "c", "tok", 10⟩ 0).2.2.mpr
     ⟨by decide, by decide⟩⟩

/-- Claim C9 (spec-modelled: Client.authenticate is not under src, only its
tests and callers): when the token-exchange HTTP call returns status 200 with
a body parsing to an AuthResponse carrying accessToken and expiresIn,
authenticate succeeds and replaces the client token state with
{token = accessToken, expiry = now + expiresIn seconds}, replacing any prior
value (the prior state c is arbitrary and the resulting token fields do not
depend on it). -/
theorem C9_authenticate_success (c : ClientState) (now : Int)
    (sig body tok typ : String) (ei : Int)
    (ua : String → Option AuthResponse) (ue : String → Option ErrorResponse)
    (hua : ua body = some ⟨tok, typ, ei⟩) :
    authenticate c now (.ok sig) (.ok ⟨200, body⟩) ua ue =
      .ok { c with accessToken := tok, tokenExpiry := now + ei } := by
  simp [authenticate, hua]

/-- Witness for C9, mirroring TestClientAuthenticateTokenResponseParsing:
a 200 body with expiresIn 7200 replaces an old token and sets expiry
now + 7200. -/
theorem C9_witness :
    authenticate ⟨"u", "p", "i", "s", "k", "c", "old-token", 5⟩ 100 (.ok "sig")
        (.ok ⟨200, "body"⟩)
        (fun _ => some ⟨"test-access-token-parsing", "Bearer", 7200⟩)
        (fun _ => none) =
      .ok ⟨"u", "p", "i", "s", "k", "c", "test-access-token-parsing", 7300⟩ :=
  C9_authenticate_success ⟨"u", "p", "i", "s", "k", "c", "old-token", 5⟩ 100
    "sig" "body" "test-access-token-parsing" "Bearer" 7200
    (fun _ => some ⟨"test-access-token-parsing", "Bearer", 7200⟩) (fun _ => none) rfl

/-- Claim C10: GetCategory returns one of only four categories, Success for
HTTP status 200-299, BadRequest for 400-499, InternalServerError for 500-599
and Pending otherwise; in particular statuses 401, 403, 404, 405 and 409 are
categorized BadRequest and 502, 503, 504 InternalServerError, and the
dedicated categories Unauthorized, Forbidden, NotFound, MethodNotAllowed,
Conflict, BadGateway and ServiceUnavailable are never returned. -/
theorem C10_get_category_bands (e : StructuredBRIAPIResponse) :
    (e.GetCategory = HttpCategory.CategorySuccess ∨
      e.GetCategory = HttpCategory.CategoryBadRequest ∨
      e.GetCategory = HttpCategory.CategoryInternalServerError ∨
      e.GetCategory = HttpCategory.CategoryPending) ∧
    (e.HTTPStatusCode = 401 → e.GetCategory = HttpCategory.CategoryBadRequest) ∧
    (e.HTTPStatusCode = 403 → e.GetCategory = HttpCategory.CategoryBadRequest) ∧
    (e.HTTPStatusCode = 404 → e.GetCategory = HttpCategory.CategoryBadRequest) ∧
    (e.HTTPStatusCode = 405 → e.GetCategory = HttpCategory.CategoryBadRequest) ∧
    (e.HTTPStatusCode = 409 → e.GetCategory = HttpCategory.CategoryBadRequest) ∧
    (e.HTTPStatusCode = 502 → e.GetCategory = HttpCategory.CategoryInternalServerError) ∧
    (e.HTTPStatusCode = 503 → e.GetCategory = HttpCategory.CategoryInternalServerError) ∧
    (e.HTTPStatusCode = 504 → e.GetCategory = HttpCategory.CategoryInternalServerError) ∧
    e.GetCategory ≠ HttpCategory.CategoryUnauthorized ∧
    e.GetCategory ≠ HttpCategory.CategoryForbidden ∧
    e.GetCategory ≠ HttpCategory.CategoryNotFound ∧
    e.GetCategory ≠ HttpCategory.CategoryMethodNotAllowed ∧
    e.GetCategory ≠ HttpCategory.CategoryConflict ∧
    e.GetCategory ≠ HttpCategory.CategoryBadGateway ∧
    e.GetCategory ≠ HttpCategory.CategoryServiceUnavailable := by
  have hfour : e.GetCategory = HttpCategory.CategorySuccess ∨
      e.GetCategory = HttpCategory.CategoryBadRequest ∨
      e.GetCategory = HttpCategory.CategoryInternalServerError ∨
      e.GetCategory = HttpCategory.CategoryPending := by
    unfold StructuredBRIAPIResponse.GetCategory
    repeat' split
    all_goals simp
  have hband : ∀ s : Int, e.HTTPStatusCode = s →
      e.GetCategory =
        (if 200 ≤ s ∧ s < 300 then HttpCategory.CategorySuccess
         else if 400 ≤ s ∧ s < 500 then HttpCategory.CategoryBadRequest
         else if 500 ≤ s ∧ s < 600 then HttpCategory.CategoryInternalServerError
         else HttpCategory.CategoryPending) := by
    intro s hs
    simp only [StructuredBRIAPIResponse.GetCategory, hs]
  have hnever : ∀ cat : HttpCategory,
      (cat = HttpCategory.CategorySuccess ∨ cat = HttpCategory.CategoryBadRequest ∨
        cat = HttpCategory.CategoryInternalServerError ∨
        cat = HttpCategory.CategoryPending) →
      cat ≠ HttpCategory.CategoryUnauthorized ∧ cat ≠ HttpCategory.CategoryForbidden ∧
      cat ≠ HttpCategory.CategoryNotFound ∧ cat ≠ HttpCategory.CategoryMethodNotAllowed ∧
      cat ≠ HttpCategory.CategoryConflict ∧ cat ≠ HttpCategory.CategoryBadGateway ∧
      cat ≠ HttpCategory.CategoryServiceUnavailable := by
    rintro cat (rfl | rfl | rfl | rfl) <;> refine ⟨?_, ?_, ?_, ?_, ?_, ?_, ?_⟩ <;> decide
  obtain ⟨hu, hf, hn, hm, hc, hb, hs⟩ := hnever _ hfour
  exact ⟨hfour,
    fun h => by rw [hband 401 h]; decide,
    fun h => by rw [hband 403 h]; decide,
    fun h => by rw [hband 404 h]; decide,
    fun h => by rw [hband 405 h]; decide,
    fun h => by rw [hband 409 h]; decide,
    fun h => by rw [hband 502 h]; decide,
    fun h => by rw [hband 503 h]; decide,
    fun h => by rw [hband 504 h]; decide,
    hu, hf, hn, hm, hc, hb, hs⟩

/-- Witness for C10 at concrete errors: a 401 response is categorized
BadRequest, a 502 response InternalServerError, and a 999 response falls in
none of the bands so the four-way disjunction holds with Pending. -/
theorem C10_witness :
    (⟨"4012701", "m", none, 401, 0⟩ : StructuredBRIAPIResponse).GetCategory =
      HttpCategory.CategoryBadRequest ∧
    (⟨"5022701", "m", none, 502, 0⟩ : StructuredBRIAPIResponse).GetCategory =
      HttpCategory.CategoryInternalServerError ∧
    ((⟨"9999999", "m", none, 999, 0⟩ : StructuredBRIAPIResponse).GetCategory =
        HttpCategory.CategorySuccess ∨
      (⟨"9999999", "m", none, 999, 0⟩ : StructuredBRIAPIResponse).GetCategory =
        HttpCategory.CategoryBadRequest ∨
      (⟨"9999999", "m", none, 999, 0⟩ : StructuredBRIAPIResponse).GetCategory =
        HttpCategory.CategoryInternalServerError ∨
      (⟨"9999999", "m", none, 999, 0⟩ : StructuredBRIAPIResponse).GetCategory =
        HttpCategory.CategoryPending) :=
  ⟨(C10_get_category_bands ⟨"4012701", "m", none, 401, 0⟩).2.1 rfl,
   (C10_get_category_bands ⟨"5022701", "m", none, 502, 0⟩).2.2.2.2.2.2.1 rfl,
   (C10_get_category_bands ⟨"9999999", "m", none, 999, 0⟩).1⟩

/-- Claim C4: for every code absent from the catalog that is exactly 7 ASCII
digits, GetBRIVAResponseDefinition synthesizes a definition whose HTTP status
is the integer strconv.Atoi parses from the first 3 characters, and whose
category is derived purely from that status: Success for 200-299, BadRequest
for 400-499, InternalServerError for 500-599, and Pending for any other
status (for example a code beginning 999). -/
theorem C4_synthesized_seven_digit (code : String)
    (hmiss : brivaResponseDefinitions.lookup code = none)
    (hlen : code.length = 7) (hdig : isDigitString code = true) :
    goAtoi (String.mk (code.data.take 3)) =
      some (GetBRIVAResponseDefinition code).ResponseCode.HTTPStatus ∧
    (GetBRIVAResponseDefinition code).Category =
      (if 200 ≤ (GetBRIVAResponseDefinition code).ResponseCode.HTTPStatus ∧
           (GetBRIVAResponseDefinition code).ResponseCode.HTTPStatus < 300 then
         HttpCategory.CategorySuccess
       else if 400 ≤ (GetBRIVAResponseDefinition code).ResponseCode.HTTPStatus ∧
           (GetBRIVAResponseDefinition code).ResponseCode.HTTPStatus < 500 then
         HttpCategory.CategoryBadRequest
       else if 500 ≤ (GetBRIVAResponseDefinition code).ResponseCode.HTTPStatus ∧
           (GetBRIVAResponseDefinition code).ResponseCode.HTTPStatus < 600 then
         HttpCategory.CategoryInternalServerError
       else HttpCategory.CategoryPending) := by
  have hget : GetBRIVAResponseDefinition code = getPendingResponseDefinition code := by
    unfold GetBRIVAResponseDefinition
    rw [hmiss]
  have hne : code.data.take 3 ≠ [] := by
    intro habs
    rcases List.take_eq_nil_iff.mp habs with h3 | hnil
    · exact absurd h3 (by decide)
    · have : code.data.length = 7 := hlen
      rw [hnil] at this
      exact absurd this (by decide)
  have hdig3 : ∀ c ∈ code.data.take 3, '0' ≤ c ∧ c ≤ '9' := fun c hc =>
    isDigitString_bounds code hdig c (List.mem_of_mem_take hc)
  obtain ⟨n, hn, _⟩ := goAtoi_digits _ hne hdig3
  rw [hget]
  simp only [getPendingResponseDefinition, hlen, hdig, and_self, if_pos, hn]

/-- Witness for C4 at the absent all-digit code 9990101: the synthesized
status is the parsed 999 and the category is Pending (999 is out of band). -/
theorem C4_witness :
    brivaResponseDefinitions.lookup "9990101" = none ∧
    goAtoi (String.mk ("9990101".data.take 3)) =
      some (GetBRIVAResponseDefinition "9990101").ResponseCode.HTTPStatus ∧
    (GetBRIVAResponseDefinition "9990101").ResponseCode.HTTPStatus = 999 ∧
    (GetBRIVAResponseDefinition "9990101").Category = HttpCategory.CategoryPending := by
  have h := C4_synthesized_seven_digit "9990101" (by decide) (by decide) (by decide)
  have hval : goAtoi (String.mk ("9990101".data.take 3)) = some 999 := by decide
  have hstat : (GetBRIVAResponseDefinition "9990101").ResponseCode.HTTPStatus = 999 := by
    have h1 := h.1
    rw [hval] at h1
    exact (Option.some.inj h1).symm
  refine ⟨by decide, h.1, hstat, ?_⟩
  rw [h.2, hstat]
  decide

/-- Counterexample to claim C5 as stated: the input "abc" is not 7 ASCII
digits, and lookup synthesizes HTTP status 500 as claimed, but the category
of the synthesized definition is InternalServerError (the 5xx band of the
defaulted status), not the claimed Pending. -/
theorem C5_counterexample :
    (GetBRIVAResponseDefinition "abc").ResponseCode.HTTPStatus = 500 ∧
    (GetBRIVAResponseDefinition "abc").Category ≠ HttpCategory.CategoryPending := by
  decide

/-- Claim C5 as amended: for every input code that is not exactly 7 ASCII
digits, lookup never fails (the embedding is a total function into
definitions) and returns a synthesized definition, carrying the original
code, whose HTTP status defaults to 500 and whose category is therefore
InternalServerError. -/
theorem C5_amended (code : String)
    (h : ¬(code.length = 7 ∧ isDigitString code = true)) :
    (GetBRIVAResponseDefinition code).ResponseCode.HTTPStatus = 500 ∧
    (GetBRIVAResponseDefinition code).Category =
      HttpCategory.CategoryInternalServerError ∧
    (GetBRIVAResponseDefinition code).ResponseCode.FullCode = code := by
  have hmiss := lookup_none_of_shape code h
  unfold GetBRIVAResponseDefinition
  rw [hmiss]
  simp [getPendingResponseDefinition, h]

/-- Witness for C5 (amended) at the non-digit code "abc". -/
theorem C5_witness :
    (GetBRIVAResponseDefinition "abc").ResponseCode.HTTPStatus = 500 ∧
    (GetBRIVAResponseDefinition "abc").Category =
      HttpCategory.CategoryInternalServerError ∧
    (GetBRIVAResponseDefinition "abc").ResponseCode.FullCode = "abc" :=
  C5_amended "abc" (by decide)

/-- Claim C3: for every VA operation, given that authentication succeeds, the
call returns a StructuredBRIAPIResponse error if and only if the transport
returned a response with HTTP status different from 200; a transport-level
failure and a failure to unmarshal a 200-status body are both surfaced as
errors that are not StructuredBRIAPIResponse (a wrapped request failure and a
wrapped unmarshal failure respectively). -/
theorem C3_error_classification (de : String → Option ErrorResponse) (now : Int)
    (msg : String) (resp : HttpResponse) :
    (∀ du : String → Option CreateVirtualAccountResponse,
      isStructuredResult (CreateVirtualAccount de du none (.error msg) now) = false ∧
      isStructuredResult (CreateVirtualAccount de du none (.ok resp) now) =
        (resp.StatusCode != 200) ∧
      (resp.StatusCode = 200 → du resp.Body = none →
        CreateVirtualAccount de du none (.ok resp) now =
          .error (.unmarshalFailed
            "failed to unmarshal create virtual account response"))) ∧
    (∀ du : String → Option UpdateVirtualAccountResponse,
      isStructuredResult (UpdateVirtualAccount de du none (.error msg) now) = false ∧
      isStructuredResult (UpdateVirtualAccount de du none (.ok resp) now) =
        (resp.StatusCode != 200) ∧
      (resp.StatusCode = 200 → du resp.Body = none →
        UpdateVirtualAccount de du none (.ok resp) now =
          .error (.unmarshalFailed
            "failed to unmarshal update virtual account response"))) ∧
    (∀ du : String → Option UpdateVirtualAccountStatusResponse,
      isStructuredResult (UpdateVirtualAccountStatus de du none (.error msg) now) =
        false ∧
      isStructuredResult (UpdateVirtualAccountStatus de du none (.ok resp) now) =
        (resp.StatusCode != 200) ∧
      (resp.StatusCode = 200 → du resp.Body = none →
        UpdateVirtualAccountStatus de du none (.ok resp) now =
          .error (.unmarshalFailed
            "failed to unmarshal update virtual account status response"))) ∧
    (∀ du : String → Option InquiryVirtualAccountResponse,
      isStructuredResult (InquiryVirtualAccount de du none (.error msg) now) = false ∧
      isStructuredResult (InquiryVirtualAccount de du none (.ok resp) now) =
        (resp.StatusCode != 200) ∧
      (resp.StatusCode = 200 → du resp.Body = none →
        InquiryVirtualAccount de du none (.ok resp) now =
          .error (.unmarshalFailed
            "failed to unmarshal inquiry virtual account response"))) ∧
    (∀ du : String → Option DeleteVirtualAccountResponse,
      isStructuredResult (DeleteVirtualAccount de du none (.error msg) now) = false ∧
      isStructuredResult (DeleteVirtualAccount de du none (.ok resp) now) =
        (resp.StatusCode != 200) ∧
      (resp.StatusCode = 200 → du resp.Body = none →
        DeleteVirtualAccount de du none (.ok resp) now =
          .error (.unmarshalFailed
            "failed to unmarshal delete virtual account response"))) ∧
    (∀ du : String → Option VirtualAccountReportResponse,
      isStructuredResult (GetVirtualAccountReport de du none (.error msg) now) = false ∧
      isStructuredResult (GetVirtualAccountReport de du none (.ok resp) now) =
        (resp.StatusCode != 200) ∧
      (resp.StatusCode = 200 → du resp.Body = none →
        GetVirtualAccountReport de du none (.ok resp) now =
          .error (.unmarshalFailed
            "failed to unmarshal virtual account report response"))) ∧
    (∀ du : String → Option InquiryVirtualAccountStatusResponse,
      isStructuredResult (InquiryVirtualAccountStatus de du none (.error msg) now) =
        false ∧
      isStructuredResult (InquiryVirtualAccountStatus de du none (.ok resp) now) =
        (resp.StatusCode != 200) ∧
      (resp.StatusCode = 200 → du resp.Body = none →
        InquiryVirtualAccountStatus de du none (.ok resp) now =
          .error (.unmarshalFailed
            "failed to unmarshal inquiry virtual account status response"))) := by
  refine ⟨fun du => ⟨rfl, ?_, fun h1 h2 => ?_⟩, fun du => ⟨rfl, ?_, fun h1 h2 => ?_⟩,
    fun du => ⟨rfl, ?_, fun h1 h2 => ?_⟩, fun du => ⟨rfl, ?_, fun h1 h2 => ?_⟩,
    fun du => ⟨rfl, ?_, fun h1 h2 => ?_⟩, fun du => ⟨rfl, ?_, fun h1 h2 => ?_⟩,
    fun du => ⟨rfl, ?_, fun h1 h2 => ?_⟩⟩
  · by_cases h : resp.StatusCode = 200
    · cases hdu : du resp.Body <;>
        simp [CreateVirtualAccount, isStructuredResult, h, hdu]
    · simp [CreateVirtualAccount, isStructuredResult, h]
  · simp [CreateVirtualAccount, h1, h2]
  · by_cases h : resp.StatusCode = 200
    · cases hdu : du resp.Body <;>
        simp [UpdateVirtualAccount, isStructuredResult, h, hdu]
    · simp [UpdateVirtualAccount, isStructuredResult, h]
  · simp [UpdateVirtualAccount, h1, h2]
  · by_cases h : resp.StatusCode = 200
    · cases hdu : du resp.Body <;>
        simp [UpdateVirtualAccountStatus, isStructuredResult, h, hdu]
    · simp [UpdateVirtualAccountStatus, isStructuredResult, h]
  · simp [UpdateVirtualAccountStatus, h1, h2]
  · by_cases h : resp.StatusCode = 200
    · cases hdu : du resp.Body <;>
        simp [InquiryVirtualAccount, isStructuredResult, h, hdu]
    · simp [InquiryVirtualAccount, isStructuredResult, h]
  · simp [InquiryVirtualAccount, h1, h2]
  · by_cases h : resp.StatusCode = 200
    · cases hdu : du resp.Body <;>
        simp [DeleteVirtualAccount, isStructuredResult, h, hdu]
    · simp [DeleteVirtualAccount, isStructuredResult, h]
  · simp [DeleteVirtualAccount, h1, h2]
  · by_cases h : resp.StatusCode = 200
    · cases hdu : du resp.Body <;>
        simp [GetVirtualAccountReport, isStructuredResult, h, hdu]
    · simp [GetVirtualAccountReport, isStructuredResult, h]
  · simp [GetVirtualAccountReport, h1, h2]
  · by_cases h : resp.StatusCode = 200
    · cases hdu : du resp.Body <;>
        simp [InquiryVirtualAccountStatus, isStructuredResult, h, hdu]
    · simp [InquiryVirtualAccountStatus, isStructuredResult, h]
  · simp [InquiryVirtualAccountStatus, h1, h2]

/-- Witness for C3: a transport failure yields a non-structured error, a 400
response yields a structured error, and an unparseable 200 body yields the
wrapped unmarshal failure, all on CreateVirtualAccount at concrete inputs. -/
theorem C3_witness :
    isStructuredResult
        (CreateVirtualAccount (fun _ => none) (fun _ => none) none
          (.error "connection refused") 0) = false ∧
    isStructuredResult
        (CreateVirtualAccount (fun _ => none) (fun _ => none) none
          (.ok ⟨400, "b"⟩) 0) = ((400 : Int) != 200) ∧
    CreateVirtualAccount (fun _ => none) (fun _ => none) none
        (.ok ⟨200, "invalid json"⟩) 0 =
      .error (.unmarshalFailed "failed to unmarshal create virtual account response") := by
  have h1 := C3_error_classification (fun _ => none) 0 "connection refused" ⟨400, "b"⟩
  have h2 := C3_error_classification (fun _ => none) 0 "connection refused"
    ⟨200, "invalid json"⟩
  exact ⟨(h1.1 (fun _ => none)).1, (h1.1 (fun _ => none)).2.1,
    (h2.1 (fun _ => none)).2.2 rfl rfl⟩

/-- The error body used for the C6 counterexample: a non-200 response whose
JSON body carries responseCode 9999999, a code absent from the catalog. -/
def c6Body : String :=
  "\x7b\"responseCode\":\"9999999\",\"responseMessage\":\"Unknown\"\x7d"

/-- The value encoding/json.Unmarshal produces for c6Body into ErrorResponse:
code 9999999 with message Unknown (and the parse failure none elsewhere). -/
def c6DecodeErr : String → Option ErrorResponse := fun s =>
  if s = c6Body then some ⟨"9999999", "Unknown"⟩ else none

/-- The structured error CreateVirtualAccount builds for a response of the
given status whose body decodes to code 9999999 and message Unknown. -/
def c6Err (status now : Int) : StructuredBRIAPIResponse :=
  ⟨"9999999", "Unknown", some (GetBRIVAResponseDefinition "9999999"), status, now⟩

/-- Counterexample to claim C6 as stated: a 400 response whose body carries
the unrecognized code 9999999 produces a structured error whose GetCategory
is BadRequest, not Pending, and whose IsPending is false: GetCategory and
IsPending derive from the HTTP status code of the response, not from the
body's response code. -/
theorem C6_counterexample :
    CreateVirtualAccount c6DecodeErr (fun _ => none) none (.ok ⟨400, c6Body⟩) 0 =
      .error (.structured (c6Err 400 0)) ∧
    (c6Err 400 0).GetCategory = HttpCategory.CategoryBadRequest ∧
    (c6Err 400 0).GetCategory ≠ HttpCategory.CategoryPending ∧
    (c6Err 400 0).IsPending = false := by
  refine ⟨?_, by decide, by decide, by decide⟩
  simp [CreateVirtualAccount, c6DecodeErr, c6Err]

/-- Claim C6 as amended: for every VA operation receiving an HTTP response
with status different from 200 whose body carries responseCode 9999999 (a
code not present in the catalog), the returned StructuredBRIAPIResponse
error carries the synthesized catalog definition for 9999999, whose Category
is Pending; the error's own GetCategory and IsPending are computed from the
response's HTTP status code, not from the body's response code, and report
Pending exactly when that status lies outside the 200-299, 400-499 and
500-599 bands. -/
theorem C6_amended (de : String → Option ErrorResponse)
    (du1 : String → Option CreateVirtualAccountResponse)
    (du2 : String → Option UpdateVirtualAccountResponse)
    (du3 : String → Option UpdateVirtualAccountStatusResponse)
    (du4 : String → Option InquiryVirtualAccountResponse)
    (du5 : String → Option DeleteVirtualAccountResponse)
    (du6 : String → Option VirtualAccountReportResponse)
    (du7 : String → Option InquiryVirtualAccountStatusResponse)
    (resp : HttpResponse) (now : Int)
    (hne : resp.StatusCode ≠ 200)
    (hde : de resp.Body = some ⟨"9999999", "Unknown"⟩) :
    CreateVirtualAccount de du1 none (.ok resp) now =
      .error (.structured (c6Err resp.StatusCode now)) ∧
    UpdateVirtualAccount de du2 none (.ok resp) now =
      .error (.structured (c6Err resp.StatusCode now)) ∧
    UpdateVirtualAccountStatus de du3 none (.ok resp) now =
      .error (.structured (c6Err resp.StatusCode now)) ∧
    InquiryVirtualAccount de du4 none (.ok resp) now =
      .error (.structured (c6Err resp.StatusCode now)) ∧
    DeleteVirtualAccount de du5 none (.ok resp) now =
      .error (.structured (c6Err resp.StatusCode now)) ∧
    GetVirtualAccountReport de du6 none (.ok resp) now =
      .error (.structured (c6Err resp.StatusCode now)) ∧
    InquiryVirtualAccountStatus de du7 none (.ok resp) now =
      .error (.structured (c6Err resp.StatusCode now)) ∧
    (GetBRIVAResponseDefinition "9999999").Category = HttpCategory.CategoryPending ∧
    ((c6Err resp.StatusCode now).IsPending = true ↔
      (c6Err resp.StatusCode now).GetCategory = HttpCategory.CategoryPending) ∧
    ((c6Err resp.StatusCode now).GetCategory = HttpCategory.CategoryPending ↔
      ¬(200 ≤ resp.StatusCode ∧ resp.StatusCode < 300) ∧
      ¬(400 ≤ resp.StatusCode ∧ resp.StatusCode < 500) ∧
      ¬(500 ≤ resp.StatusCode ∧ resp.StatusCode < 600)) := by
  refine ⟨?_, ?_, ?_, ?_, ?_, ?_, ?_, by decide, ?_, ?_⟩
  · simp [CreateVirtualAccount, hne, hde, c6Err]
  · simp [UpdateVirtualAccount, hne, hde, c6Err]
  · simp [UpdateVirtualAccountStatus, hne, hde, c6Err]
  · simp [InquiryVirtualAccount, hne, hde, c6Err]
  · simp [DeleteVirtualAccount, hne, hde, c6Err]
  · simp [GetVirtualAccountReport, hne, hde, c6Err]
  · simp [InquiryVirtualAccountStatus, hne, hde, c6Err]
  · simp [StructuredBRIAPIResponse.IsPending]
  · unfold StructuredBRIAPIResponse.GetCategory c6Err
    repeat' split
    all_goals simp_all

/-- Witness for C6 (amended) at status 999, outside every band: the error's
own category is then Pending as well. -/
theorem C6_witness :
    CreateVirtualAccount c6DecodeErr (fun _ => none) none (.ok ⟨999, c6Body⟩) 7 =
      .error (.structured (c6Err 999 7)) ∧
    (GetBRIVAResponseDefinition "9999999").Category = HttpCategory.CategoryPending ∧
    ((c6Err 999 7).GetCategory = HttpCategory.CategoryPending ↔
      ¬(200 ≤ (999 : Int) ∧ (999 : Int) < 300) ∧
      ¬(400 ≤ (999 : Int) ∧ (999 : Int) < 500) ∧
      ¬(500 ≤ (999 : Int) ∧ (999 : Int) < 600)) := by
  have h := C6_amended c6DecodeErr (fun _ => none) (fun _ => none) (fun _ => none)
    (fun _ => none) (fun _ => none) (fun _ => none) (fun _ => none)
    ⟨999, c6Body⟩ 7 (by decide) (by simp [c6DecodeErr])
  exact ⟨h.1, h.2.2.2.2.2.2.2.1, h.2.2.2.2.2.2.2.2.2⟩

/-- Claim C7: for every VA operation receiving an HTTP response with status
different from 200 whose body is not valid JSON (the ErrorResponse decode
fails, leaving the Go zero value), the call still returns a
StructuredBRIAPIResponse error whose responseCode and responseMessage fields
are the empty string, rather than failing with a parse error. -/
theorem C7_unparseable_error_body (de : String → Option ErrorResponse)
    (du1 : String → Option CreateVirtualAccountResponse)
    (du2 : String → Option UpdateVirtualAccountResponse)
    (du3 : String → Option UpdateVirtualAccountStatusResponse)
    (du4 : String → Option InquiryVirtualAccountResponse)
    (du5 : String → Option DeleteVirtualAccountResponse)
    (du6 : String → Option VirtualAccountReportResponse)
    (du7 : String → Option InquiryVirtualAccountStatusResponse)
    (resp : HttpResponse) (now : Int)
    (hne : resp.StatusCode ≠ 200)
    (hde : de resp.Body = none) :
    CreateVirtualAccount de du1 none (.ok resp) now =
      .error (.structured
        ⟨"", "", some (GetBRIVAResponseDefinition ""), resp.StatusCode, now⟩) ∧
    UpdateVirtualAccount de du2 none (.ok resp) now =
      .error (.structured
        ⟨"", "", some (GetBRIVAResponseDefinition ""), resp.StatusCode, now⟩) ∧
    UpdateVirtualAccountStatus de du3 none (.ok resp) now =
      .error (.structured
        ⟨"", "", some (GetBRIVAResponseDefinition ""), resp.StatusCode, now⟩) ∧
    InquiryVirtualAccount de du4 none (.ok resp) now =
      .error (.structured
        ⟨"", "", some (GetBRIVAResponseDefinition ""), resp.StatusCode, now⟩) ∧
    DeleteVirtualAccount de du5 none (.ok resp) now =
      .error (.structured
        ⟨"", "", some (GetBRIVAResponseDefinition ""), resp.StatusCode, now⟩) ∧
    GetVirtualAccountReport de du6 none (.ok resp) now =
      .error (.structured
        ⟨"", "", some (GetBRIVAResponseDefinition ""), resp.StatusCode, now⟩) ∧
    InquiryVirtualAccountStatus de du7 none (.ok resp) now =
      .error (.structured
        ⟨"", "", some (GetBRIVAResponseDefinition ""), resp.StatusCode, now⟩) := by
  refine ⟨?_, ?_, ?_, ?_, ?_, ?_, ?_⟩
  · simp [CreateVirtualAccount, hne, hde]
  · simp [UpdateVirtualAccount, hne, hde]
  · simp [UpdateVirtualAccountStatus, hne, hde]
  · simp [InquiryVirtualAccount, hne, hde]
  · simp [DeleteVirtualAccount, hne, hde]
  · simp [GetVirtualAccountReport, hne, hde]
  · simp [InquiryVirtualAccountStatus, hne, hde]

/-- Witness for C7: a 400 response whose body decodes as no JSON at all still
produces a structured error with empty code and message. -/
theorem C7_witness :
    CreateVirtualAccount (fun _ => none) (fun _ => none) none
        (.ok ⟨400, "plainly not json"⟩) 3 =
      .error (.structured ⟨"", "", some (GetBRIVAResponseDefinition ""), 400, 3⟩) :=
  (C7_unparseable_error_body (fun _ => none) (fun _ => none) (fun _ => none)
    (fun _ => none) (fun _ => none) (fun _ => none) (fun _ => none) (fun _ => none)
    ⟨400, "plainly not json"⟩ 3 (by decide) rfl).1

/-- Cons with equal heads has equal tails. -/
theorem cons_inj_tail {c : Char} {x y : List Char} (h : c :: x = c :: y) : x = y := by
  simpa using h

/-- Character-data form of the hex digest length. -/
theorem sha256Hex_data_length (s : String) : (sha256Hex s).data.length = 64 :=
  sha256Hex_length s

/-- Counterexample to claim C2 as stated: changing only the request body does
not always change the signature.  For method GET the body is ignored by
calculateSignature (client.go line 157), so two different bodies yield the
identical signature with every other input fixed. -/
theorem C2_counterexample :
    calculateSignature "test-secret" "test-token" "GET" "/test" "body-a"
        "2024-01-01T00:00:00.000Z" =
      calculateSignature "test-secret" "test-token" "GET" "/test" "body-b"
        "2024-01-01T00:00:00.000Z" ∧
    ("body-a" : String) ≠ "body-b" :=
  ⟨rfl, by decide⟩

/-- Claim C2 as amended: the per-request HMAC signature is deterministic, any
two computations with identical method, path, body, access token, client
secret and timestamp yield an identical base64 signature, the timestamp
being the wall-clock reading consumed by the computation; changing exactly
one of the path, access token, timestamp or method always changes the HMAC
payload string METHOD:PATH:ACCESS_TOKEN:BODY_HASH_HEX:TIMESTAMP over which
the signature is computed (and hence the signature whenever HMAC-SHA512 does
not collide on the two payloads); but changing the body alone need not
change the signature: for method GET the body is ignored and the signature
is unchanged. -/
theorem C2_amended :
    (∀ sec tok m p b ts sec2 tok2 m2 p2 b2 ts2 : String,
      sec = sec2 → tok = tok2 → m = m2 → p = p2 → b = b2 → ts = ts2 →
      calculateSignature sec tok m p b ts = calculateSignature sec2 tok2 m2 p2 b2 ts2) ∧
    (∀ tok m p b ts p2 : String,
      signaturePayload tok m p b ts = signaturePayload tok m p2 b ts → p = p2) ∧
    (∀ tok m p b ts tok2 : String,
      signaturePayload tok m p b ts = signaturePayload tok2 m p b ts → tok = tok2) ∧
    (∀ tok m p b ts ts2 : String,
      signaturePayload tok m p b ts = signaturePayload tok m p b ts2 → ts = ts2) ∧
    (∀ tok m p b ts m2 : String,
      signaturePayload tok m p b ts = signaturePayload tok m2 p b ts → m = m2) ∧
    (∀ sec tok p b b2 ts : String,
      calculateSignature sec tok "GET" p b ts = calculateSignature sec tok "GET" p b2 ts) := by
  refine ⟨?_, ?_, ?_, ?_, ?_, ?_⟩
  · rintro sec tok m p b ts _ _ _ _ _ _ rfl rfl rfl rfl rfl rfl
    rfl
  · intro tok m p b ts p2 h
    have hd := congrArg String.data h
    rw [signaturePayload_data, signaturePayload_data] at hd
    have h1 := cons_inj_tail (List.append_cancel_left hd)
    exact string_data_eq (List.append_cancel_right h1)
  · intro tok m p b ts tok2 h
    have hd := congrArg String.data h
    rw [signaturePayload_data, signaturePayload_data] at hd
    have h1 := cons_inj_tail (List.append_cancel_left hd)
    have h2 := cons_inj_tail (List.append_cancel_left h1)
    exact string_data_eq (List.append_cancel_right h2)
  · intro tok m p b ts ts2 h
    have hd := congrArg String.data h
    rw [signaturePayload_data, signaturePayload_data] at hd
    have h1 := cons_inj_tail (List.append_cancel_left hd)
    have h2 := cons_inj_tail (List.append_cancel_left h1)
    have h3 := cons_inj_tail (List.append_cancel_left h2)
    have h4 := cons_inj_tail (List.append_cancel_left h3)
    exact string_data_eq h4
  · intro tok m p b ts m2 h
    have hd := congrArg String.data h
    rw [signaturePayload_data, signaturePayload_data] at hd
    have hlen := congrArg List.length hd
    simp only [List.length_append, List.length_cons, sha256Hex_data_length] at hlen
    have hm : m.data.length = m2.data.length := by omega
    exact string_data_eq (List.append_inj hd hm).1
  · intro sec tok p b b2 ts
    rfl

/-- Witness for C2 (amended) at concrete inputs: determinism on equal inputs,
each payload-sensitivity clause applied where the two payloads are built from
the same component, and the GET clause on two visibly different bodies. -/
theorem C2_witness :
    calculateSignature "s" "t" "POST" "/p" "b" "ts" =
      calculateSignature "s" "t" "POST" "/p" "b" "ts" ∧
    ("/p" : String) = "/p" ∧ ("t" : String) = "t" ∧ ("ts" : String) = "ts" ∧
    ("POST" : String) = "POST" ∧
    calculateSignature "s" "t" "GET" "/p" "body-a" "ts" =
      calculateSignature "s" "t" "GET" "/p" "body-b" "ts" :=
  ⟨C2_amended.1 "s" "t" "POST" "/p" "b" "ts" "s" "t" "POST" "/p" "b" "ts"
      rfl rfl rfl rfl rfl rfl,
   C2_amended.2.1 "t" "POST" "/p" "b" "ts" "/p" rfl,
   C2_amended.2.2.1 "t" "POST" "/p" "b" "ts" "t" rfl,
   C2_amended.2.2.2.1 "t" "POST" "/p" "b" "ts" "ts" rfl,
   C2_amended.2.2.2.2.1 "t" "POST" "/p" "b" "ts" "POST" rfl,
   C2_amended.2.2.2.2.2 "s" "t" "/p" "body-a" "body-b" "ts"⟩

/-- The client state used to exercise the dispatcher for claim C1. -/
def c1Client : ClientState :=
  ⟨"https://sandbox.partner.api.bri.co.id", "test-partner", "test-client",
   "test-secret", "key", "test-channel", "test-token", 0⟩

/-- The two successive generateTimestamp() readings of one makeRequest call
that straddle a millisecond boundary. -/
def c1SigClock : String := "2024-01-01T00:00:00.000Z"

/-- The second reading, one millisecond later. -/
def c1HeaderClock : String := "2024-01-01T00:00:00.001Z"

set_option maxRecDepth 100000 in
set_option maxHeartbeats 8000000 in
/-- Claim C1 fails on the code: makeRequest reads the wall clock once inside
calculateSignature (client.go line 170) and again for the X-TIMESTAMP header
(line 211).  When the two readings differ, here by one millisecond, the
request carries an X-TIMESTAMP header equal to the second reading while its
X-SIGNATURE was computed over a payload embedding the first reading, and the
signature sent differs from the signature over the header timestamp, so the
timestamp embedded in the HMAC payload is not the value sent in the
X-TIMESTAMP header. -/
theorem C1_timestamp_mismatch :
    headerValue
        (makeRequest c1Client "POST" "/snap/v1.0/transfer-va/create-va"
          (some "\x7b\x7d") c1SigClock c1HeaderClock "000000001") "X-TIMESTAMP" =
      some c1HeaderClock ∧
    headerValue
        (makeRequest c1Client "POST" "/snap/v1.0/transfer-va/create-va"
          (some "\x7b\x7d") c1SigClock c1HeaderClock "000000001") "X-SIGNATURE" =
      some (calculateSignature "test-secret" "test-token" "POST"
        "/snap/v1.0/transfer-va/create-va" "\x7b\x7d" c1SigClock) ∧
    c1SigClock ≠ c1HeaderClock ∧
    signaturePayload "test-token" "POST" "/snap/v1.0/transfer-va/create-va"
        "\x7b\x7d" c1SigClock ≠
      signaturePayload "test-token" "POST" "/snap/v1.0/transfer-va/create-va"
        "\x7b\x7d" c1HeaderClock ∧
    calculateSignature "test-secret" "test-token" "POST"
        "/snap/v1.0/transfer-va/create-va" "\x7b\x7d" c1SigClock ≠
      calculateSignature "test-secret" "test-token" "POST"
        "/snap/v1.0/transfer-va/create-va" "\x7b\x7d" c1HeaderClock :=
  ⟨rfl, rfl, by decide, by decide, by decide⟩
